import Mathlib

/-!
Verification of the Pterodactyl deploy bot (src/bot.py) against its
natural-language specification.  The Python source is shallowly embedded:
the sqlite database is a record of three row lists kept in insertion
(rowid) order, the two REST surfaces are reached through an explicit
network oracle, and every command handler is a pure function from its
inputs, the configuration and the database to a list of emitted effects
plus the successor database.  Python string truthiness (None and "" are
falsy) is modelled explicitly wherever the source branches on it.
-/

namespace DeployBot

/-! ## JSON values and adapter plumbing -/

/-- A JSON-like value, the shape of request bodies and of the parsed
responses the Python code passes around as `dict`s. -/
inductive JVal where
  | null
  | jstr (s : String)
  | jnum (n : Int)
  | jbool (b : Bool)
  | jarr (elems : List JVal)
  | jobj (fields : List (String × JVal))

/-- The two REST surfaces: `…/api/application` (elevated key) and
`…/api/client` (operator key). -/
inductive Surface where
  | elevated
  | operator
  deriving DecidableEq

/-- A fully assembled outbound HTTP request, as handed to the network. -/
structure NetReq where
  surface : Surface
  panel_key : String
  path : String
  method : String
  body : Option JVal

/-- What the network does with an attempted request: a 204, a parsable
JSON body, or a body that fails to parse (carrying the status code).
The network itself is external, so it is an oracle parameter. -/
inductive NetResp where
  | noContent
  | ok (v : JVal)
  | unparsable (status : Nat)

/-- Observable side effects of a handler, in emission order: an attempted
adapter network call, an (ephemeral) reply to the invoker, a direct
message, or a post to a log channel.  Where the Python interpolates the
raw adapter response into the human-readable text, the response value is
carried alongside the static text as `attach`. -/
inductive Effect where
  | api (req : NetReq)
  | message (text : String) (attach : Option JVal)
  | dm (target : String) (title : String) (text : String) (attach : Option JVal)
  | channelPost (channel : Nat) (title : String) (text : String) (attach : Option JVal)

/-- One configured panel: `PANELS[key] = {url, api_key, application_api_key}`.
A key absent from the config dict is `none`. -/
structure Panel where
  url : String
  api_key : Option String
  application_api_key : Option String

/-- Static process configuration: `ADMINS` and `PANELS` from config.json. -/
structure Ctx where
  admins : List String
  panels : List (String × Panel)

/-- Python truthiness of an optional string: `None` and `""` are falsy. -/
def truthyOptStr : Option String → Bool
  | none => false
  | some s => s != ""

/-- Python `x or dflt` for an optional string `x`. -/
def pyOr (x : Option String) (dflt : String) : String :=
  match x with
  | none => dflt
  | some s => if s == "" then dflt else s

/-- `PANELS.get(panel_key)`.  A configured panel entry is a non-empty JSON
object, so Python's `if not panel` is exactly absence from the config. -/
def lookupPanel (panels : List (String × Panel)) (k : String) : Option Panel :=
  (panels.find? (fun p => p.1 == k)).map (fun p => p.2)

/-- The `{"error": kind}` dictionaries the adapter fabricates locally. -/
def errJ (kind : String) : JVal :=
  JVal.jobj [("error", JVal.jstr kind)]

/-- How an attempted network exchange is turned into the returned dict:
204 becomes `{"status": 204}`, a parsable body is returned as-is, and a
parse failure becomes `{"error": "invalid_json_response_<status>"}`. -/
def respToJson (r : NetResp) : JVal :=
  match r with
  | NetResp.noContent => JVal.jobj [("status", JVal.jnum 204)]
  | NetResp.ok v => v
  | NetResp.unparsable st => errJ ("invalid_json_response_" ++ toString st)

/-- `app_api_request(panel_key, path, method, json_body)` — the elevated
("application") surface wrapper.  Unknown panel and missing key short
circuit before any network activity; otherwise exactly one request is
attempted. -/
def app_api_request (panels : List (String × Panel)) (net : NetReq → NetResp)
    (panel_key path method : String) (json_body : Option JVal) : List Effect × JVal :=
  match lookupPanel panels panel_key with
  | none => ([], errJ "panel_not_found")
  | some panel =>
    if truthyOptStr panel.application_api_key then
      let req : NetReq := ⟨Surface.elevated, panel_key, path, method, json_body⟩
      ([Effect.api req], respToJson (net req))
    else
      ([], errJ "missing_application_key")

/-- `client_api_request(panel_key, path, method, json_body)` — the operator
("client") surface wrapper, same shape with the other key. -/
def client_api_request (panels : List (String × Panel)) (net : NetReq → NetResp)
    (panel_key path method : String) (json_body : Option JVal) : List Effect × JVal :=
  match lookupPanel panels panel_key with
  | none => ([], errJ "panel_not_found")
  | some panel =>
    if truthyOptStr panel.api_key then
      let req : NetReq := ⟨Surface.operator, panel_key, path, method, json_body⟩
      ([Effect.api req], respToJson (net req))
    else
      ([], errJ "missing_client_key")

/-! ## The sqlite store -/

/-- One row of the `users` table (`email` carries a UNIQUE constraint). -/
structure UserRow where
  email : String
  password : String
  panel_key : String
  discord_id : Option String
  nickname : Option String
  deriving DecidableEq

/-- One row of the `servers` table. -/
structure ServerRow where
  panel_key : String
  server_uuid : String
  name : String
  owner_email : String
  owner_discord : Option String
  description : Option String
  deriving DecidableEq

/-- One row of the `log_channels` table, which carries
`UNIQUE(panel_key, server_id)`.  The source stores `str(channel_id)` and
parses it back with `int(...)`; decimal encoding is a bijection on
channel ids, so the id is kept as a `Nat`. -/
structure LogRow where
  panel_key : String
  server_id : Option String
  channel_id : Nat
  deriving DecidableEq

/-- The whole store.  Each list is in insertion (rowid) order, which is
the order `fetchone`/`fetchall` observe for the queries the bot issues. -/
structure DB where
  users : List UserRow
  servers : List ServerRow
  log_channels : List LogRow
  deriving DecidableEq

/-- `save_created_user`: `INSERT OR IGNORE INTO users …`.  The only
constraint on the table is UNIQUE(email), so the insert is silently
dropped exactly when some row already has this email. -/
def save_created_user (db : DB) (panel_key email password : String)
    (discord_id : Option String) (nickname : Option String) : DB :=
  if db.users.any (fun u => u.email == email) then db
  else ⟨db.users ++ [⟨email, password, panel_key, discord_id, nickname⟩], db.servers, db.log_channels⟩

/-- `save_created_server`: a plain `INSERT INTO servers …`, never deduplicated. -/
def save_created_server (db : DB) (panel_key server_uuid name owner_email : String)
    (owner_discord : Option String) (description : Option String) : DB :=
  ⟨db.users, db.servers ++ [⟨panel_key, server_uuid, name, owner_email, owner_discord, description⟩], db.log_channels⟩

/-- `set_log_channel`: `INSERT INTO log_channels … ON CONFLICT(panel_key,
server_id) DO UPDATE SET channel_id=excluded.channel_id`.  In sqlite, NULL
values are pairwise distinct for UNIQUE constraints, so an insert with a
NULL `server_id` can never conflict: it always appends a fresh row.  For a
non-NULL `server_id` the conflicting row (unique, by the constraint) is
updated in place. -/
def set_log_channel (db : DB) (panel_key : String) (channel_id : Nat)
    (server_id : Option String) : DB :=
  match server_id with
  | none => ⟨db.users, db.servers, db.log_channels ++ [⟨panel_key, none, channel_id⟩]⟩
  | some s =>
    if db.log_channels.any (fun r => r.panel_key == panel_key && r.server_id == some s) then
      ⟨db.users, db.servers,
        db.log_channels.map (fun r =>
          if r.panel_key == panel_key && r.server_id == some s then
            ⟨r.panel_key, r.server_id, channel_id⟩
          else r)⟩
    else
      ⟨db.users, db.servers, db.log_channels ++ [⟨panel_key, some s, channel_id⟩]⟩

/-- The scope-wide default lookup: `SELECT channel_id FROM log_channels
WHERE panel_key=? AND server_id IS NULL` followed by `fetchone` — the
first matching row in rowid order. -/
def default_log_channel (db : DB) (panel_key : String) : Option Nat :=
  (db.log_channels.find? (fun r => r.panel_key == panel_key && r.server_id == none)).map
    (fun r => r.channel_id)

/-- `get_log_channel(panel_key, server_id)`.  The guard is Python
`if server_id:` — truthiness, so the instance-specific query runs only
for a non-None, non-empty identifier; otherwise (and when the specific
query finds nothing) the scope-wide default row is consulted. -/
def get_log_channel (db : DB) (panel_key : String) (server_id : Option String) : Option Nat :=
  if truthyOptStr server_id then
    match db.log_channels.find? (fun r => r.panel_key == panel_key && r.server_id == server_id) with
    | some r => some r.channel_id
    | none => default_log_channel db panel_key
  else
    default_log_channel db panel_key

/-- `find_user_by_discord`: `SELECT … FROM users WHERE discord_id = ?`,
`fetchone` — the first matching row in rowid order (the Python returns
the email/password/panel_key projection of that row). -/
def find_user_by_discord (db : DB) (discord_id : String) : Option UserRow :=
  db.users.find? (fun u => u.discord_id == some discord_id)

/-- `list_saved_servers(limit)`: `SELECT id, … FROM servers ORDER BY
created_at DESC LIMIT ?`.  Insertion timestamps follow rowid order, so
newest-first is the reverse of insertion order; `id` is rowid, i.e. one
plus the insertion index. -/
def list_saved_servers (db : DB) (limit : Nat) : List (Nat × ServerRow) :=
  ((db.servers.enum.map (fun p => (p.1 + 1, p.2))).reverse).take limit

/-! ## Discord-side helpers -/

/-- `is_admin_user`: membership of the invoker's id string in the static
`ADMINS` set. -/
def is_admin_user (admins : List String) (user_id : String) : Bool :=
  admins.contains user_id

/-- `dm_user_embed`: attempts one direct message; the boolean is whether
delivery succeeded (`user.send` raising is modelled by the `dmOk`
deliverability oracle). -/
def dm_user_embed (dmOk : String → Bool) (target title text : String)
    (attach : Option JVal) : List Effect × Bool :=
  ([Effect.dm target title text attach], dmOk target)

/-- `send_log_embed`: resolves the sink via `get_log_channel`; when no
sink is configured nothing at all happens, otherwise one post to the
resolved channel is attempted (fetch/send failures are swallowed). -/
def send_log_embed (db : DB) (panel_key : String) (server_id : Option String)
    (title text : String) (attach : Option JVal) : List Effect :=
  match get_log_channel db panel_key server_id with
  | none => []
  | some ch => [Effect.channelPost ch title text attach]

/-! ## Interactive wait -/

/-- One inbound chat message, as seen by the `bot.wait_for("message", …)`
predicate. -/
structure InboundMsg where
  author : Nat
  channel : Nat
  content : String

/-- `bot.wait_for("message", check, timeout)` where
`check(m) = m.author.id == actor and m.channel.id == channel`: the first
message arriving before the deadline that satisfies the check resolves the
wait; `events` are the messages that arrive before the deadline, in
arrival order, and `none` is the `asyncio.TimeoutError` outcome. -/
def wait_for_matching (events : List InboundMsg) (actor channel : Nat) : Option String :=
  (events.find? (fun m => m.author == actor && m.channel == channel)).map (fun m => m.content)

/-! ## Payload builders -/

/-- Python `email.split("@")[0]` on the underlying characters: everything
before the first `'@'`, the whole string when there is none. -/
def splitAtSign : List Char → List Char
  | [] => []
  | c :: cs => if c == '@' then [] else c :: splitAtSign cs

/-- The username the create-user flow derives from the email. -/
def username_of (email : String) : String :=
  ⟨splitAtSign email.data⟩

/-- The create-user request body of `slash_createuser`. -/
def createuser_payload (email username firstname lastname password : String) : JVal :=
  JVal.jobj [("email", JVal.jstr email), ("username", JVal.jstr username),
    ("first_name", JVal.jstr firstname), ("last_name", JVal.jstr lastname),
    ("password", JVal.jstr password)]

/-- The create-server request body of `slash_createserver`. -/
def createserver_payload (name owner : String) (egg : Int) (docker_image : String)
    (memory disk cpu : Int) (startup : String) : JVal :=
  JVal.jobj [("name", JVal.jstr name), ("user", JVal.jstr owner), ("egg", JVal.jnum egg),
    ("docker_image", JVal.jstr docker_image), ("startup", JVal.jstr startup),
    ("environment", JVal.jobj []),
    ("limits", JVal.jobj [("memory", JVal.jnum memory), ("swap", JVal.jnum 0),
      ("disk", JVal.jnum disk), ("io", JVal.jnum 500), ("cpu", JVal.jnum cpu)]),
    ("allocation", JVal.jobj [("default", JVal.jnum 0)]),
    ("pack", JVal.null),
    ("feature_limits", JVal.jobj [])]

/-- The subuser-invite request body shared by the share flows, with the
fixed permission set. -/
def share_payload (email : String) : JVal :=
  JVal.jobj [("email", JVal.jstr email),
    ("permissions", JVal.jarr [JVal.jstr "control.start", JVal.jstr "control.stop",
      JVal.jstr "control.restart", JVal.jstr "control.console", JVal.jstr "websocket.connect"])]

/-! ## JSON field access (Python `.get`) -/

/-- `d.get(k)` on a JSON object; `none` when absent or not an object. -/
def jget (v : JVal) (k : String) : Option JVal :=
  match v with
  | JVal.jobj fs => (fs.find? (fun f => f.1 == k)).map (fun f => f.2)
  | _ => none

/-- A field fetched as a string value. -/
def jget_str (v : JVal) (k : String) : Option String :=
  match jget v k with
  | some (JVal.jstr s) => some s
  | _ => none

/-- Python truthiness of a JSON value. -/
def truthyJ : JVal → Bool
  | JVal.null => false
  | JVal.jstr s => s != ""
  | JVal.jnum n => n != 0
  | JVal.jbool b => b
  | JVal.jarr xs => !xs.isEmpty
  | JVal.jobj fs => !fs.isEmpty

/-- The uuid extraction of `slash_createserver`:
`res.get("attributes", {}).get("uuid") or (res.get("object", {}).get("attributes", {}).get("uuid") if res.get("object") else None)`. -/
def extract_uuid (res : JVal) : Option String :=
  let a := (jget res "attributes").bind (fun x => jget_str x "uuid")
  if truthyOptStr a then a
  else
    match jget res "object" with
    | some o =>
      if truthyJ o then (jget o "attributes").bind (fun x => jget_str x "uuid")
      else none
    | none => none

/-! ## Command handlers -/

/-- `/createuser` (admin).  On denial the handler returns immediately with
the not-authorized reply; otherwise the password defaults to a freshly
generated secret (`gen_password` models `secrets.token_urlsafe(10)`), the
elevated surface is called, and — unconditionally, whatever the adapter
returned — the user row is written with `INSERT OR IGNORE`, followed by
the DM/log fanout. -/
def slash_createuser (ctx : Ctx) (net : NetReq → NetResp) (dmOk : String → Bool) (db : DB)
    (invoker panel email : String) (password : Option String) (firstname lastname : String)
    ( is_admin : Bool) (nickname : Option String) (discord_member : Option String)
    (gen_password : String) : List Effect × DB :=
  if is_admin_user ctx.admins invoker then
    let pwd := pyOr password gen_password
    let username := username_of email
    let payload := createuser_payload email username firstname lastname pwd
    let call := app_api_request ctx.panels net panel "/users" "POST" (some payload)
    let db1 := save_created_user db panel email pwd discord_member nickname
    let desc := "User `" ++ email ++ "` created on `" ++ panel ++ "`."
    let dmInvoker := dm_user_embed dmOk invoker "User Created" desc (some call.2)
    let dmTarget :=
      match discord_member with
      | some m => (dm_user_embed dmOk m "Your Panel Account" ("Email: `" ++ email ++ "`") none).1
      | none => []
    let logEff := send_log_embed db1 panel none "User Created" desc (some call.2)
    let final :=
      if dmInvoker.2 then [Effect.message "✅ User created. Check your DM." none]
      else [Effect.message "✅ User created. DM blocked." (some call.2)]
    (call.1 ++ dmInvoker.1 ++ dmTarget ++ logEff ++ final, db1)
  else
    ([Effect.message "❌ Not authorized." none], db)

/-- The owner resolution of `/createserver`: the direct `owner_email` when
truthy, otherwise — when a member was mentioned — the email of the first
stored user row linked to that member's id (also recording the member id
as `owner_discord_id`). -/
def resolve_owner (db : DB) (owner_email owner_discord : Option String) :
    Option String × Option String :=
  if truthyOptStr owner_email then (owner_email, none)
  else
    match owner_discord with
    | none => (owner_email, none)
    | some d =>
      match find_user_by_discord db d with
      | none => (owner_email, none)
      | some u => (some u.email, some d)

/-- `/createserver` (admin): authorize, resolve the owner (failing before
any external call when neither source yields a truthy email), call the
elevated surface, extract the uuid (placeholder "unknown" when absent),
insert the server row, and fan out. -/
def slash_createserver (ctx : Ctx) (net : NetReq → NetResp) (dmOk : String → Bool) (db : DB)
    (invoker panel : String) (owner_email owner_discord : Option String) (name : String)
    (egg : Int) (docker_image : String) (memory disk cpu : Int) (startup : String)
    (description : Option String) : List Effect × DB :=
  if is_admin_user ctx.admins invoker then
    let rd := resolve_owner db owner_email owner_discord
    if truthyOptStr rd.1 then
      let owner := pyOr rd.1 ""
      let payload := createserver_payload name owner egg docker_image memory disk cpu startup
      let call := app_api_request ctx.panels net panel "/servers" "POST" (some payload)
      let uuid := extract_uuid call.2
      let db1 := save_created_server db panel (pyOr uuid "unknown") name owner rd.2 description
      let desc := "Server `" ++ name ++ "` created for `" ++ owner ++ "`."
      let dmE := dm_user_embed dmOk invoker "Server Created" desc (some call.2)
      let dmOwner :=
        match rd.2 with
        | some d => (dm_user_embed dmOk d "Your Server Created" desc (some call.2)).1
        | none => []
      let logEff := send_log_embed db1 panel uuid "Server Created" desc (some call.2)
      (call.1 ++ dmE.1 ++ dmOwner ++ logEff ++
        [Effect.message "✅ Server creation requested. Details sent to DM." none], db1)
    else
      ([Effect.message "Provide owner_email or mention owner_discord registered in DB." none], db)
  else
    ([Effect.message "❌ Not authorized." none], db)

/-- `/deleteserver` (admin): authorize, call the elevated surface DELETE,
fan out; no store mutation. -/
def slash_deleteserver (ctx : Ctx) (net : NetReq → NetResp) (dmOk : String → Bool) (db : DB)
    (invoker panel server_uuid : String) : List Effect × DB :=
  if is_admin_user ctx.admins invoker then
    let call := app_api_request ctx.panels net panel ("/servers/" ++ server_uuid) "DELETE" none
    let desc := "Delete requested for `" ++ server_uuid ++ "`."
    let dmE := dm_user_embed dmOk invoker "Server Delete Requested" desc (some call.2)
    let logEff := send_log_embed db panel (some server_uuid) "Server Delete" desc (some call.2)
    (call.1 ++ dmE.1 ++ logEff ++ [Effect.message "✅ Delete requested. Check your DM." none], db)
  else
    ([Effect.message "❌ Not authorized." none], db)

/-- One line of the `/viewservers` listing. -/
def server_line (p : Nat × ServerRow) : String :=
  "#" ++ toString p.1 ++ " | panel:" ++ p.2.panel_key ++ " | uuid:" ++ p.2.server_uuid ++
    " | name:" ++ p.2.name ++ " | owner:" ++ p.2.owner_email

/-- The 1900-character chunking of the `/viewservers` DM text:
`[text[i:i+1900] for i in range(0, len(text), 1900)]`. -/
def chunkText (cs : List Char) : List String :=
  if h : cs = [] then []
  else String.mk (cs.take 1900) :: chunkText (cs.drop 1900)
termination_by cs.length
decreasing_by
  simp only [List.length_drop]
  exact Nat.sub_lt (List.length_pos.mpr h) (by decide)

/-- `/viewservers` (admin): a read-only projection of the store, delivered
privately in chunks; no adapter call, no store mutation. -/
def slash_viewservers (ctx : Ctx) (db : DB) (invoker : String) : List Effect × DB :=
  if is_admin_user ctx.admins invoker then
    let rows := list_saved_servers db 200
    if rows.isEmpty then
      ([Effect.message "No stored servers." none], db)
    else
      let text := String.intercalate "\n" (rows.map server_line)
      ((chunkText text.data).map (fun c => Effect.dm invoker "Servers:" c none) ++
        [Effect.message "Sent server list to your DMs." none], db)
  else
    ([Effect.message "❌ Not authorized." none], db)

/-- `/setlogchannel` (admin): upserts the scope-wide default sink. -/
def slash_setlogchannel (ctx : Ctx) (db : DB) (invoker panel : String) (channel : Nat) :
    List Effect × DB :=
  if is_admin_user ctx.admins invoker then
    let db1 := set_log_channel db panel channel none
    ([Effect.message ("✅ Panel `" ++ panel ++ "` logs set.") none], db1)
  else
    ([Effect.message "❌ Not authorized." none], db)

/-- `/setserverlog` (admin): upserts the instance-specific sink. -/
def slash_setserverlog (ctx : Ctx) (db : DB) (invoker panel server_id : String)
    (channel : Nat) : List Effect × DB :=
  if is_admin_user ctx.admins invoker then
    let db1 := set_log_channel db panel channel (some server_id)
    ([Effect.message ("✅ Server `" ++ server_id ++ "` logs set.") none], db1)
  else
    ([Effect.message "❌ Not authorized." none], db)

/-- The "Add Share User" button handler of the share manager view: prompt,
wait up to 60 s for a message from the same actor in the same channel,
then either invite the stripped reply text via the operator surface and
log it, or — on timeout — reply "Timed out. Try again." and do nothing
else. -/
def ShareView_add_user (panels : List (String × Panel)) (net : NetReq → NetResp) (db : DB)
    (panel server : String) (actor channel : Nat) (events : List InboundMsg) : List Effect :=
  Effect.message "Reply with the email to invite (60s)." none ::
    match wait_for_matching events actor channel with
    | none => [Effect.message "Timed out. Try again." none]
    | some content =>
      let email := content.trim
      let payload := share_payload email
      let call := client_api_request panels net panel ("/servers/" ++ server ++ "/users") "POST"
        (some payload)
      call.1 ++ [Effect.message ("Invited `" ++ email ++ "`.") (some call.2)] ++
        send_log_embed db panel (some server) "Subuser Invited" email (some call.2)

/-- `.shareuser <panel> <server> <email> <@member?>` (quick share, any
caller): always issues the invite on the operator surface; when a member
is mentioned, `UPDATE users SET discord_id = ? WHERE email = ?` links that
member to every stored account with the given email; then replies and
logs. -/
def shareuser_cmd (panels : List (String × Panel)) (net : NetReq → NetResp) (db : DB)
    (panel server email : String) (member : Option String) : List Effect × DB :=
  let payload := share_payload email
  let call := client_api_request panels net panel ("/servers/" ++ server ++ "/users") "POST"
    (some payload)
  let db1 :=
    match member with
    | none => db
    | some m =>
      ⟨db.users.map (fun u => if u.email == email then ⟨u.email, u.password, u.panel_key, some m, u.nickname⟩ else u),
        db.servers, db.log_channels⟩
  (call.1 ++ [Effect.message "Share requested:" (some call.2)] ++
    send_log_embed db1 panel (some server) "Subuser Shared" email (some call.2), db1)

/-! ## Sample values used by concrete witnesses and counterexamples -/

/-- A network oracle answering every attempted request with 204. -/
def netConst : NetReq → NetResp := fun _ => NetResp.noContent

/-- A deliverability oracle under which every DM succeeds. -/
def dmAlways : String → Bool := fun _ => true

/-- The store right after `init_db` on a fresh file: all three tables empty. -/
def emptyDB : DB := ⟨[], [], []⟩

/-! ## Generic helper lemmas -/

/-- The network requests attempted in an effect trace, in order. -/
def api_reqs (trace : List Effect) : List NetReq :=
  trace.filterMap (fun e =>
    match e with
    | Effect.api r => some r
    | _ => none)

theorem api_reqs_append (t1 t2 : List Effect) :
    api_reqs (t1 ++ t2) = api_reqs t1 ++ api_reqs t2 := by
  simp [api_reqs]

theorem api_reqs_send_log (db : DB) (panel_key : String) (server_id : Option String)
    (title text : String) (attach : Option JVal) :
    api_reqs (send_log_embed db panel_key server_id title text attach) = [] := by
  unfold send_log_embed
  cases get_log_channel db panel_key server_id <;> simp [api_reqs]

theorem api_reqs_app_request (panels : List (String × Panel)) (net : NetReq → NetResp)
    (panel_key path method : String) (body : Option JVal) :
    api_reqs (app_api_request panels net panel_key path method body).1 = [] ∨
    api_reqs (app_api_request panels net panel_key path method body).1
      = [⟨Surface.elevated, panel_key, path, method, body⟩] := by
  unfold app_api_request
  cases lookupPanel panels panel_key with
  | none => exact Or.inl (by simp [api_reqs])
  | some p =>
    by_cases h : truthyOptStr p.application_api_key
    · exact Or.inr (by simp [h, api_reqs])
    · exact Or.inl (by simp [h, api_reqs])

theorem splitAtSign_eq_takeWhile (cs : List Char) :
    splitAtSign cs = cs.takeWhile (fun c => c != '@') := by
  induction cs with
  | nil => rfl
  | cons c cs ih =>
    by_cases h : c = '@'
    · subst h; simp [splitAtSign, List.takeWhile_cons]
    · simp [splitAtSign, List.takeWhile_cons, h, ih]

/-! ## Claim C1 -/

/-- Claim C1 (counterexample).  The claim says an account record is
persisted only when the elevated-surface call succeeds.  Concretely: with
no panel configured under "alpha", the adapter call made by the
create-account flow returns the unknown-scope error result, yet the same
authorized `slash_createuser` invocation on an empty store still changes
the account store (the row is inserted unconditionally). -/
theorem claim1_counterexample :
    app_api_request [] netConst "alpha" "/users" "POST"
        (some (createuser_payload "a@x.com" "a" "F" "L" "pw"))
      = ([], errJ "panel_not_found") ∧
    (slash_createuser ⟨["A"], []⟩ netConst dmAlways emptyDB "A" "alpha" "a@x.com" (some "pw")
        "F" "L" false none none "gen").2
      ≠ emptyDB := by
  refine ⟨rfl, ?_⟩
  decide

/-- Claim C1 (amended).  The create-account flow persists the account
record unconditionally: whenever the invoker is an admin, the store after
`slash_createuser` is exactly `save_created_user` applied to the prior
store, independent of what the adapter returned (the record is therefore
written — unless the email already exists — even when the adapter reports
unknown scope, missing credential, or a malformed response). -/
theorem claim1_store_written_unconditionally (ctx : Ctx) (net : NetReq → NetResp)
    (dmOk : String → Bool) (db : DB) (invoker panel email : String) (password : Option String)
    (firstname lastname : String) (adminFlag : Bool) (nickname discord_member : Option String)
    (gen_password : String) (hadm : is_admin_user ctx.admins invoker = true) :
    (slash_createuser ctx net dmOk db invoker panel email password firstname lastname
        adminFlag nickname discord_member gen_password).2
      = save_created_user db panel email (pyOr password gen_password) discord_member nickname := by
  simp [slash_createuser, hadm]

/-- Claim C1 (witness for the amended theorem) at a concrete admin
invocation with an unknown scope. -/
theorem claim1_witness :
    (slash_createuser ⟨["A"], []⟩ netConst dmAlways emptyDB "A" "alpha" "a@x.com" (some "pw")
        "F" "L" false none none "gen").2
      = save_created_user emptyDB "alpha" "a@x.com" (pyOr (some "pw") "gen") none none :=
  claim1_store_written_unconditionally ⟨["A"], []⟩ netConst dmAlways emptyDB "A" "alpha"
    "a@x.com" (some "pw") "F" "L" false none none "gen" (by decide)

/-! ## Claim C2 -/

/-- Claim C2 (code bug).  `set_log_channel` is meant — by its own
`ON CONFLICT(panel_key, server_id) DO UPDATE` clause — to upsert on the
(scope, instanceId) key, null instanceId included.  Because sqlite treats
NULL values as pairwise distinct in UNIQUE constraints, the conflict
never fires for the null key: setting the scope-wide default for "alpha"
to channel 5 and then to channel 7 leaves two rows in the table, and the
lookup keeps answering the first-written channel 5 instead of 7. -/
theorem claim2_null_key_not_upserted :
    (set_log_channel (set_log_channel emptyDB "alpha" 5 none) "alpha" 7 none).log_channels
        = [⟨"alpha", none, 5⟩, ⟨"alpha", none, 7⟩] ∧
      get_log_channel (set_log_channel (set_log_channel emptyDB "alpha" 5 none) "alpha" 7 none)
          "alpha" none
        = some 5 := by
  decide

/-! ## Claim C3 -/

/-- Claim C3.  Account creation is first-write-wins on the email natural
key: whenever some stored account already carries the given email —
whatever panel scope either record names — a later `save_created_user`
call leaves the store exactly unchanged: the first-written secret and
panel scope persist, no new record is added, and the call does not
error. -/
theorem claim3_first_write_wins (db : DB) (panel_key email password : String)
    (discord_id nickname : Option String)
    (h : db.users.any (fun u => u.email == email) = true) :
    save_created_user db panel_key email password discord_id nickname = db := by
  simp [save_created_user, h]

/-- Claim C3 (witness): a second creation of "a@x.com" with a different
secret and a different panel scope leaves the store untouched. -/
theorem claim3_witness :
    save_created_user ⟨[⟨"a@x.com", "pw1", "alpha", none, none⟩], [], []⟩
        "beta" "a@x.com" "pw2" none none
      = ⟨[⟨"a@x.com", "pw1", "alpha", none, none⟩], [], []⟩ :=
  claim3_first_write_wins ⟨[⟨"a@x.com", "pw1", "alpha", none, none⟩], [], []⟩
    "beta" "a@x.com" "pw2" none none (by decide)

/-! ## Claim C4 -/

/-- Claim C4.  Every admin-only action — create-account, create-server,
delete-server, list-servers, set-scope-log-channel,
set-instance-log-channel — invoked by an identity outside the static
admin set produces exactly the distinct "❌ Not authorized." reply and
nothing else: no adapter call appears in the trace and the store is
returned unchanged. -/
theorem claim4_unauthorized_no_side_effects (ctx : Ctx) (net : NetReq → NetResp)
    (dmOk : String → Bool) (db : DB) (invoker panel email firstname lastname : String)
    (password nickname discord_member owner_email owner_discord description : Option String)
    (adminFlag : Bool) (gen_password name docker_image startup server_uuid server_id : String)
    (egg memory disk cpu : Int) (channel : Nat)
    (h : is_admin_user ctx.admins invoker = false) :
    slash_createuser ctx net dmOk db invoker panel email password firstname lastname
        adminFlag nickname discord_member gen_password
      = ([Effect.message "❌ Not authorized." none], db) ∧
    slash_createserver ctx net dmOk db invoker panel owner_email owner_discord name egg
        docker_image memory disk cpu startup description
      = ([Effect.message "❌ Not authorized." none], db) ∧
    slash_deleteserver ctx net dmOk db invoker panel server_uuid
      = ([Effect.message "❌ Not authorized." none], db) ∧
    slash_viewservers ctx db invoker
      = ([Effect.message "❌ Not authorized." none], db) ∧
    slash_setlogchannel ctx db invoker panel channel
      = ([Effect.message "❌ Not authorized." none], db) ∧
    slash_setserverlog ctx db invoker panel server_id channel
      = ([Effect.message "❌ Not authorized." none], db) := by
  refine ⟨?_, ?_, ?_, ?_, ?_, ?_⟩ <;>
    simp [slash_createuser, slash_createserver, slash_deleteserver, slash_viewservers,
      slash_setlogchannel, slash_setserverlog, h]

/-- Claim C4 (witness): the six denials at a concrete non-admin invoker
"U" against a one-admin configuration. -/
theorem claim4_witness :
    slash_createuser ⟨["A"], []⟩ netConst dmAlways emptyDB "U" "alpha" "a@x.com" none "F" "L"
        false none none "gen"
      = ([Effect.message "❌ Not authorized." none], emptyDB) ∧
    slash_createserver ⟨["A"], []⟩ netConst dmAlways emptyDB "U" "alpha" none none "srv" 1
        "img" 1024 1024 100 "run" none
      = ([Effect.message "❌ Not authorized." none], emptyDB) ∧
    slash_deleteserver ⟨["A"], []⟩ netConst dmAlways emptyDB "U" "alpha" "uuid-1"
      = ([Effect.message "❌ Not authorized." none], emptyDB) ∧
    slash_viewservers ⟨["A"], []⟩ emptyDB "U"
      = ([Effect.message "❌ Not authorized." none], emptyDB) ∧
    slash_setlogchannel ⟨["A"], []⟩ emptyDB "U" "alpha" 7
      = ([Effect.message "❌ Not authorized." none], emptyDB) ∧
    slash_setserverlog ⟨["A"], []⟩ emptyDB "U" "alpha" "uuid-1" 7
      = ([Effect.message "❌ Not authorized." none], emptyDB) :=
  claim4_unauthorized_no_side_effects ⟨["A"], []⟩ netConst dmAlways emptyDB "U" "alpha"
    "a@x.com" "F" "L" none none none none none none false "gen" "srv" "img" "run" "uuid-1"
    "uuid-1" 1 1024 1024 100 7 (by decide)

/-! ## Claim C5 -/

/-- Claim C5 (counterexample).  The claim quantifies over every
(scope, instanceId) key, but `get_log_channel` guards the
instance-specific query with Python truthiness (`if server_id:`), so the
empty-string identifier is skipped.  Concretely: an instance-specific
sink (channel 9) is stored for the pair ("alpha", "") — the `find?`
conjunct exhibits the row — yet the lookup for exactly that pair answers
the scope-wide default channel 4 instead of 9. -/
theorem claim5_counterexample :
    (DB.log_channels ⟨[], [], [⟨"alpha", some "", 9⟩, ⟨"alpha", none, 4⟩]⟩).find?
        (fun r => r.panel_key == "alpha" && r.server_id == some "")
      = some ⟨"alpha", some "", 9⟩ ∧
    get_log_channel ⟨[], [], [⟨"alpha", some "", 9⟩, ⟨"alpha", none, 4⟩]⟩ "alpha" (some "")
      = some 4 := by
  decide

/-- Claim C5 (amended).  For every sink lookup with a non-empty instance
identifier, the instance-specific sink (first matching row, if any) is
preferred, with fallback to the scope-wide default row, and absent when
neither exists; a lookup with a null — or empty-string — identifier
consults only the scope-wide default. -/
theorem claim5_lookup_preference (db : DB) (panel_key s : String) (h : s ≠ "") :
    (get_log_channel db panel_key (some s)
      = match db.log_channels.find? (fun r => r.panel_key == panel_key && r.server_id == some s) with
        | some r => some r.channel_id
        | none => default_log_channel db panel_key) ∧
    get_log_channel db panel_key none = default_log_channel db panel_key := by
  constructor
  · have ht : truthyOptStr (some s) = true := by
      simp [truthyOptStr]
      exact h
    simp [get_log_channel, ht]
  · simp [get_log_channel, truthyOptStr]

/-- Claim C5 (witness): with an instance sink for ("alpha", "srv-1") and a
scope default, the lookup at the non-empty identifier "srv-1" answers the
instance sink. -/
theorem claim5_witness :
    get_log_channel ⟨[], [], [⟨"alpha", none, 4⟩, ⟨"alpha", some "srv-1", 9⟩]⟩ "alpha"
        (some "srv-1")
      = match (DB.log_channels ⟨[], [], [⟨"alpha", none, 4⟩, ⟨"alpha", some "srv-1", 9⟩]⟩).find?
          (fun r => r.panel_key == "alpha" && r.server_id == some "srv-1") with
        | some r => some r.channel_id
        | none => default_log_channel ⟨[], [], [⟨"alpha", none, 4⟩, ⟨"alpha", some "srv-1", 9⟩]⟩ "alpha" :=
  (claim5_lookup_preference ⟨[], [], [⟨"alpha", none, 4⟩, ⟨"alpha", some "srv-1", 9⟩]⟩
    "alpha" "srv-1" (by decide)).1

/-! ## Claim C6 -/

/-- Claim C6.  On both surfaces, an unresolvable scope name yields the
ScopeNotFound error dict (`{"error": "panel_not_found"}`) with no network
request attempted (empty effect list), and a resolvable scope whose key
for the selected surface is missing (absent, or empty and hence falsy)
yields the MissingCredential error dict
(`{"error": "missing_application_key"}` / `{"error": "missing_client_key"}`),
again with no network request attempted. -/
theorem claim6_adapter_error_kinds (panels : List (String × Panel)) (net : NetReq → NetResp)
    (panel_key path method : String) (body : Option JVal) :
    (lookupPanel panels panel_key = none →
      app_api_request panels net panel_key path method body = ([], errJ "panel_not_found") ∧
      client_api_request panels net panel_key path method body = ([], errJ "panel_not_found")) ∧
    (∀ p, lookupPanel panels panel_key = some p →
      (truthyOptStr p.application_api_key = false →
        app_api_request panels net panel_key path method body
          = ([], errJ "missing_application_key")) ∧
      (truthyOptStr p.api_key = false →
        client_api_request panels net panel_key path method body
          = ([], errJ "missing_client_key"))) := by
  constructor
  · intro h
    exact ⟨by simp [app_api_request, h], by simp [client_api_request, h]⟩
  · intro p hp
    constructor
    · intro hk
      simp [app_api_request, hp, hk]
    · intro hk
      simp [client_api_request, hp, hk]

/-- Claim C6 (witness): an unconfigured scope, and a configured scope with
neither key present. -/
theorem claim6_witness :
    (app_api_request [] netConst "alpha" "/users" "GET" none = ([], errJ "panel_not_found") ∧
      client_api_request [] netConst "alpha" "/users" "GET" none = ([], errJ "panel_not_found")) ∧
    (app_api_request [("alpha", ⟨"http://p", none, none⟩)] netConst "alpha" "/users" "GET" none
        = ([], errJ "missing_application_key") ∧
      client_api_request [("alpha", ⟨"http://p", none, none⟩)] netConst "alpha" "/users" "GET" none
        = ([], errJ "missing_client_key")) :=
  ⟨(claim6_adapter_error_kinds [] netConst "alpha" "/users" "GET" none).1 rfl,
    ⟨((claim6_adapter_error_kinds [("alpha", ⟨"http://p", none, none⟩)] netConst "alpha"
        "/users" "GET" none).2 ⟨"http://p", none, none⟩ rfl).1 rfl,
      ((claim6_adapter_error_kinds [("alpha", ⟨"http://p", none, none⟩)] netConst "alpha"
        "/users" "GET" none).2 ⟨"http://p", none, none⟩ rfl).2 rfl⟩⟩

/-! ## Claim C7 -/

/-- Claim C7.  When an authorized create-server invocation supplies no
truthy owner email and the mentioned chat identity (if any) does not
resolve through the store to a usable account email, the handler stops
with the owner-unresolved reply: the returned trace is exactly that one
message — no adapter call was attempted — and the store is returned
unchanged, so no server record was inserted. -/
theorem claim7_owner_unresolved (ctx : Ctx) (net : NetReq → NetResp) (dmOk : String → Bool)
    (db : DB) (invoker panel : String) (owner_email owner_discord : Option String)
    (name : String) (egg : Int) (docker_image : String) (memory disk cpu : Int)
    (startup : String) (description : Option String)
    (hadm : is_admin_user ctx.admins invoker = true)
    (hoe : truthyOptStr owner_email = false)
    (hod : ∀ d, owner_discord = some d →
      ∀ u, find_user_by_discord db d = some u → u.email = "") :
    slash_createserver ctx net dmOk db invoker panel owner_email owner_discord name egg
        docker_image memory disk cpu startup description
      = ([Effect.message "Provide owner_email or mention owner_discord registered in DB." none],
          db) := by
  have hrd : truthyOptStr (resolve_owner db owner_email owner_discord).1 = false := by
    unfold resolve_owner
    rw [hoe]
    cases owner_discord with
    | none => simpa using hoe
    | some d =>
      cases hfind : find_user_by_discord db d with
      | none => simpa [hfind] using hoe
      | some u =>
        have hu := hod d rfl u hfind
        simp [hfind, truthyOptStr, hu]
  simp [slash_createserver, hadm, hrd]

/-- Claim C7 (witness): an admin invocation naming no owner email and a
chat member with no stored account. -/
theorem claim7_witness :
    slash_createserver ⟨["A"], []⟩ netConst dmAlways emptyDB "A" "alpha" none (some "42")
        "srv" 1 "img" 1024 1024 100 "run" none
      = ([Effect.message "Provide owner_email or mention owner_discord registered in DB." none],
          emptyDB) :=
  claim7_owner_unresolved ⟨["A"], []⟩ netConst dmAlways emptyDB "A" "alpha" none (some "42")
    "srv" 1 "img" 1024 1024 100 "run" none (by decide) (by decide)
    (by intro d hd u hu; cases hu)

/-! ## Claim C8 -/

/-- Claim C8.  A share-add interactive session in which no message from
the same actor in the same channel arrives before the deadline resolves
to exactly the prompt followed by the distinct "Timed out. Try again."
reply: the trace contains no adapter invite call and none of the
continuation's effects. -/
theorem claim8_share_add_timeout (panels : List (String × Panel)) (net : NetReq → NetResp)
    (db : DB) (panel server : String) (actor channel : Nat) (events : List InboundMsg)
    (h : events.all (fun m => !(m.author == actor && m.channel == channel)) = true) :
    ShareView_add_user panels net db panel server actor channel events
      = [Effect.message "Reply with the email to invite (60s)." none,
         Effect.message "Timed out. Try again." none] := by
  have hfind : events.find? (fun m => m.author == actor && m.channel == channel) = none := by
    rw [List.find?_eq_none]
    intro x hx hc
    have hx2 := List.all_eq_true.mp h x hx
    rw [hc] at hx2
    simp at hx2
  have hw : wait_for_matching events actor channel = none := by
    simp [wait_for_matching, hfind]
  simp [ShareView_add_user, hw]

/-- Claim C8 (witness): two pending messages, one from another actor and
one in another channel, so the wait times out. -/
theorem claim8_witness :
    ShareView_add_user [] netConst emptyDB "alpha" "srv" 1 10
        [⟨2, 10, "a@x.com"⟩, ⟨1, 11, "b@x.com"⟩]
      = [Effect.message "Reply with the email to invite (60s)." none,
         Effect.message "Timed out. Try again." none] :=
  claim8_share_add_timeout [] netConst emptyDB "alpha" "srv" 1 10
    [⟨2, 10, "a@x.com"⟩, ⟨1, 11, "b@x.com"⟩] (by decide)

/-! ## Claim C9 -/

/-- Claim C9.  In every authorized create-account invocation, every
request the flow attempts on the network goes to the elevated surface
and its body carries a username equal to the portion of the supplied
email before the first "@" (and when the email contains no "@", that
local part is the whole email). -/
theorem claim9_username_is_local_part (ctx : Ctx) (net : NetReq → NetResp)
    (dmOk : String → Bool) (db : DB) (invoker panel email : String) (password : Option String)
    (firstname lastname : String) (adminFlag : Bool) (nickname discord_member : Option String)
    (gen_password : String) (hadm : is_admin_user ctx.admins invoker = true) :
    ((api_reqs (slash_createuser ctx net dmOk db invoker panel email password firstname
          lastname adminFlag nickname discord_member gen_password).1).all
        (fun r => r.surface == Surface.elevated &&
          ((r.body.bind (fun b => jget_str b "username"))
            == some (String.mk (email.data.takeWhile (fun c => c != '@'))))) = true) ∧
    ('@' ∉ email.data → username_of email = email) := by
  have hsplit : username_of email = String.mk (email.data.takeWhile (fun c => c != '@')) := by
    unfold username_of
    rw [splitAtSign_eq_takeWhile]
  constructor
  · have hkey : ∀ u f l pw, jget_str (createuser_payload email u f l pw) "username" = some u := by
      intro u f l pw
      simp [createuser_payload, jget_str, jget]
    have htrace : api_reqs (slash_createuser ctx net dmOk db invoker panel email password
          firstname lastname adminFlag nickname discord_member gen_password).1
        = api_reqs (app_api_request ctx.panels net panel "/users" "POST"
            (some (createuser_payload email (username_of email) firstname lastname
              (pyOr password gen_password)))).1 := by
      simp only [slash_createuser, hadm, if_true]
      rw [api_reqs_append, api_reqs_append, api_reqs_append, api_reqs_append]
      rw [api_reqs_send_log]
      cases discord_member <;> cases hdm : dmOk invoker <;>
        simp [api_reqs, dm_user_embed, hdm]
    rw [htrace]
    rcases api_reqs_app_request ctx.panels net panel "/users" "POST"
        (some (createuser_payload email (username_of email) firstname lastname
          (pyOr password gen_password))) with hr | hr
    · rw [hr]
      rfl
    · rw [hr]
      simp [hkey, hsplit]
  · intro hat
    rw [hsplit]
    have : email.data.takeWhile (fun c => c != '@') = email.data := by
      rw [List.takeWhile_eq_self_iff]
      intro a ha
      have : a ≠ '@' := by
        intro he
        exact hat (he ▸ ha)
      simpa using this
    rw [this]

/-- Claim C9 (witness): a concrete authorized run against a configured
panel, where the one attempted request carries username "a" for email
"a@x.com", which indeed contains "@". -/
theorem claim9_witness :
    ((api_reqs (slash_createuser ⟨["A"], [("alpha", ⟨"http://p", some "ck", some "ak"⟩)]⟩
          netConst dmAlways emptyDB "A" "alpha" "a@x.com" (some "pw") "F" "L" false none none
          "gen").1).all
        (fun r => r.surface == Surface.elevated &&
          ((r.body.bind (fun b => jget_str b "username"))
            == some (String.mk (("a@x.com").data.takeWhile (fun c => c != '@'))))) = true) ∧
    ('@' ∉ ("a@x.com").data → username_of "a@x.com" = "a@x.com") :=
  claim9_username_is_local_part ⟨["A"], [("alpha", ⟨"http://p", some "ck", some "ak"⟩)]⟩
    netConst dmAlways emptyDB "A" "alpha" "a@x.com" (some "pw") "F" "L" false none none
    "gen" (by decide)

/-! ## Claim C10 -/

/-- Claim C10.  The quick-share command's store footprint: when no chat
member is named the store is returned entirely unchanged; when a member
is named, the server and sink tables are unchanged and, row by row, every
account whose email equals the supplied email has exactly its
chat-identity field set to that member while all its other fields — and
every account with a different email in full — are unchanged. -/
theorem claim10_quick_share_frame (panels : List (String × Panel)) (net : NetReq → NetResp)
    (db : DB) (panel server email : String) (member : Option String) :
    (member = none → (shareuser_cmd panels net db panel server email member).2 = db) ∧
    (∀ m, member = some m →
      (shareuser_cmd panels net db panel server email member).2.servers = db.servers ∧
      (shareuser_cmd panels net db panel server email member).2.log_channels = db.log_channels ∧
      ∀ i : Nat, (shareuser_cmd panels net db panel server email member).2.users[i]?
        = (db.users[i]?).map (fun u =>
            if u.email == email then ⟨u.email, u.password, u.panel_key, some m, u.nickname⟩
            else u)) := by
  constructor
  · intro h
    subst h
    rfl
  · intro m hm
    subst hm
    refine ⟨rfl, rfl, ?_⟩
    intro i
    show (db.users.map _)[i]? = _
    rw [List.getElem?_map]

/-- Claim C10 (witness): sharing "a@x.com" with member "42" updates only
the chat identity of the matching stored account, leaving the
non-matching account untouched. -/
theorem claim10_witness :
    ((shareuser_cmd [] netConst
        ⟨[⟨"a@x.com", "pw", "alpha", none, some "nick"⟩, ⟨"b@x.com", "pw2", "beta", none, none⟩],
          [], []⟩
        "alpha" "srv" "a@x.com" (some "42")).2.users[0]?
      = some ⟨"a@x.com", "pw", "alpha", some "42", some "nick"⟩) ∧
    ((shareuser_cmd [] netConst
        ⟨[⟨"a@x.com", "pw", "alpha", none, some "nick"⟩, ⟨"b@x.com", "pw2", "beta", none, none⟩],
          [], []⟩
        "alpha" "srv" "a@x.com" (some "42")).2.users[1]?
      = some ⟨"b@x.com", "pw2", "beta", none, none⟩) := by
  have h := (claim10_quick_share_frame [] netConst
    ⟨[⟨"a@x.com", "pw", "alpha", none, some "nick"⟩, ⟨"b@x.com", "pw2", "beta", none, none⟩],
      [], []⟩
    "alpha" "srv" "a@x.com" (some "42")).2 "42" rfl
  exact ⟨(h.2.2 0).trans (by decide), (h.2.2 1).trans (by decide)⟩

end DeployBot
